import Mathlib

/-!
Shallow embedding of the `pdf_perf_test` load-testing tool
(`src/pdf_perf_test/`): the Dispatcher (`core/load_tester.py`), the
DrainWatcher (`TestRunner._wait_for_empty_queue` in `core/runner.py`),
the Verifier (`core/verifier.py`), the Orchestrator aggregation
(`TestRunner._compile_results`, `TestRunner._sample_job_ids`) and the
configuration object (`config.py`, `run_perf_test.py`).

Machine floats are modelled by `ℚ`; wall-clock time is an abstract
clock that advances only at explicit sleeps; the remote HTTP / S3 / SQS
services are parameters (a response per batch, a confirmation oracle,
a list of queue-depth readings).
-/

namespace PdfPerfTest

/-- Iteration core of Python `range(start, stop, step)`; the first
argument after `step` is fuel, for which `stop - start` always
suffices. -/
def pyRangeAux (step : Nat) : Nat → Nat → Nat → List Nat
  | 0, _, _ => []
  | fuel + 1, start, stop =>
    if 0 < step ∧ start < stop then start :: pyRangeAux step fuel (start + step) stop
    else []

/-- Python `range(start, stop, step)` as the list of indices it yields
(the loop `for i in range(0, self.config.requests, self.config.batch_size)`
in `LoadTester.run`).  A zero step yields the empty list. -/
def pyRange (start stop step : Nat) : List Nat :=
  pyRangeAux step (stop - start) start stop

theorem pyRangeAux_congr (step : Nat) :
    ∀ fuel fuel' start stop, stop - start ≤ fuel → stop - start ≤ fuel' →
      pyRangeAux step fuel start stop = pyRangeAux step fuel' start stop := by
  intro fuel
  induction fuel with
  | zero =>
    intro fuel' start stop h1 h2
    cases fuel' with
    | zero => rfl
    | succ f =>
      have hlt : ¬ start < stop := by omega
      rw [pyRangeAux, pyRangeAux]
      simp [hlt]
  | succ f ih =>
    intro fuel' start stop h1 h2
    cases fuel' with
    | zero =>
      have hlt : ¬ start < stop := by omega
      rw [pyRangeAux, pyRangeAux]
      simp [hlt]
    | succ f' =>
      rw [pyRangeAux, pyRangeAux]
      by_cases hc : 0 < step ∧ start < stop
      · simp only [hc, if_true]
        rw [ih f' (start + step) stop (by omega) (by omega)]
      · simp only [hc, if_false]

/-- The recursive equation of `pyRange`: one index per loop iteration. -/
theorem pyRange_eq (start stop step : Nat) :
    pyRange start stop step =
      if 0 < step ∧ start < stop then start :: pyRange (start + step) stop step
      else [] := by
  unfold pyRange
  by_cases hc : 0 < step ∧ start < stop
  · have h1 : stop - start = (stop - start - 1) + 1 := by omega
    rw [h1, pyRangeAux]
    simp only [hc, if_true, List.cons.injEq, true_and]
    exact pyRangeAux_congr step (stop - start - 1) (stop - (start + step))
      (start + step) stop (by omega) le_rfl
  · simp only [hc, if_false]
    cases heq : stop - start with
    | zero => rfl
    | succ f =>
      rw [pyRangeAux]
      simp [hc]

theorem pyRange_length (stop step : Nat) (hstep : 0 < step) :
    ∀ start, (pyRange start stop step).length = (stop - start + step - 1) / step := by
  have H : ∀ d start, stop - start ≤ d →
      (pyRange start stop step).length = (stop - start + step - 1) / step := by
    intro d
    induction d with
    | zero =>
      intro start hle
      rw [pyRange_eq]
      have hlt : ¬ start < stop := by omega
      simp only [hlt, and_false, if_false, List.length_nil]
      have h0 : stop - start = 0 := by omega
      rw [h0, Nat.zero_add, Nat.div_eq_of_lt (by omega)]
    | succ d ih =>
      intro start hle
      rw [pyRange_eq]
      by_cases hlt : start < stop
      · simp only [hstep, hlt, and_self, if_true, List.length_cons]
        rw [ih (start + step) (by omega)]
        rcases Nat.le_total (stop - start) step with h2 | h2
        · have h1 : stop - (start + step) + step - 1 = step - 1 := by omega
          have h3 : stop - start + step - 1 = (stop - start - 1) + step := by omega
          rw [h1, h3, Nat.add_div_right _ hstep,
            Nat.div_eq_of_lt (show step - 1 < step by omega),
            Nat.div_eq_of_lt (show stop - start - 1 < step by omega)]
        · have h3 : stop - start + step - 1 = (stop - (start + step) + step - 1) + step := by
            omega
          rw [h3, Nat.add_div_right _ hstep]
      · simp only [hlt, and_false, if_false, List.length_nil]
        have h0 : stop - start = 0 := by omega
        rw [h0, Nat.zero_add, Nat.div_eq_of_lt (by omega)]
  intro start
  exact H (stop - start) start le_rfl

theorem pyRange_zero_length (stop step : Nat) (hstep : 0 < step) :
    (pyRange 0 stop step).length = (stop + step - 1) / step := by
  have h := pyRange_length stop step hstep 0
  simpa using h

/-- One per-job entry of the JSON body of a batch response
(`response_data["results"]` in `LoadTester.send_batch_request`). -/
structure JobResult where
  status : String
  job_id : String
deriving DecidableEq

/-- Outcome of the outbound HTTP call for one batch: either the server
answered with some status code and a parsed body, or the request raised
(network exception, or `json.loads` failing on a malformed body — both
land in the `except Exception` arm of `send_batch_request`). -/
inductive BatchResponse where
  | http (status : Nat) (results : List JobResult)
  | exn (msg : String)
deriving DecidableEq

/-- The mutable accumulators of a `LoadTester` instance
(`self.job_ids`, `self.latencies`, `self.successful_requests`). -/
structure LTState where
  job_ids : List String
  latencies : List ℚ
  successful_requests : Nat
deriving DecidableEq

/-- The `for result in response_data.get("results", [])` loop of
`send_batch_request`: per success marker, append the job id, the
per-job latency approximation `batch_latency / batch_size`, bump the
success counter and record `True`; otherwise record `False`. -/
def processResults (batch_size : Nat) (batch_latency : ℚ) :
    LTState → List JobResult → LTState × List Bool
  | st, [] => (st, [])
  | st, r :: rs =>
    if r.status = "success" then
      let st' : LTState :=
        { job_ids := st.job_ids ++ [r.job_id]
          latencies := st.latencies ++ [batch_latency / (batch_size : ℚ)]
          successful_requests := st.successful_requests + 1 }
      let rest := processResults batch_size batch_latency st' rs
      (rest.1, true :: rest.2)
    else
      let rest := processResults batch_size batch_latency st rs
      (rest.1, false :: rest.2)

/-- `LoadTester.send_batch_request` for one batch: on a 200 response the
per-job results are folded into the state; any other status code, and
any exception, yields `[False] * self.config.batch_size` and leaves the
accumulators untouched (no retry, nothing raised to the caller). -/
def send_batch_request (batch_size : Nat) (batch_latency : ℚ)
    (st : LTState) (resp : BatchResponse) : LTState × List Bool :=
  match resp with
  | .http status results =>
    if status = 200 then processResults batch_size batch_latency st results
    else (st, List.replicate batch_size false)
  | .exn _ => (st, List.replicate batch_size false)

/-- The batch starting indices `range(0, requests, batch_size)` built in
`LoadTester.run` — one task per element. -/
def batchStarts (requests batch_size : Nat) : List Nat :=
  pyRange 0 requests batch_size

/-- Sequential linearization of the batch tasks of `LoadTester.run`
(the only shared mutation is appending to the accumulators, so any
interleaving yields the same counts; this model runs the batches in
list order).  `resp` gives the transport outcome of the batch starting
at a given index, `lat` its wall-clock latency. -/
def run_batches (batch_size : Nat) (resp : Nat → BatchResponse) (lat : Nat → ℚ) :
    LTState → List Nat → LTState × List (List Bool)
  | st, [] => (st, [])
  | st, b :: bs =>
    let one := send_batch_request batch_size (lat b) st (resp b)
    let rest := run_batches batch_size resp lat one.1 bs
    (rest.1, one.2 :: rest.2)

/-- The dispatch phase of `LoadTester.run`: fresh accumulators, one
batch task per element of `range(0, requests, batch_size)`. -/
def run_dispatch (requests batch_size : Nat)
    (resp : Nat → BatchResponse) (lat : Nat → ℚ) : LTState × List (List Bool) :=
  run_batches batch_size resp lat ⟨[], [], 0⟩ (batchStarts requests batch_size)

/-- Number of per-request outcome slots a batch records: the length of
the list `send_batch_request` returns. -/
def slotCount (batch_size : Nat) (resp : BatchResponse) : Nat :=
  match resp with
  | .http status results => if status = 200 then results.length else batch_size
  | .exn _ => batch_size

/-- Total number of per-request outcome slots recorded across all
batches of a dispatch run. -/
def totalOutcomes (requests batch_size : Nat)
    (resp : Nat → BatchResponse) (lat : Nat → ℚ) : Nat :=
  ((run_dispatch requests batch_size resp lat).2.map List.length).sum

theorem processResults_length (batch_size : Nat) (batch_latency : ℚ)
    (st : LTState) (rs : List JobResult) :
    (processResults batch_size batch_latency st rs).2.length = rs.length := by
  induction rs generalizing st with
  | nil => rfl
  | cons r rs ih =>
    rw [processResults]
    by_cases h : r.status = "success" <;> simp [h, ih]

theorem send_batch_request_length (batch_size : Nat) (batch_latency : ℚ)
    (st : LTState) (resp : BatchResponse) :
    (send_batch_request batch_size batch_latency st resp).2.length
      = slotCount batch_size resp := by
  cases resp with
  | http status results =>
    by_cases hs : status = 200
    · subst hs
      simpa [send_batch_request, slotCount] using
        processResults_length batch_size batch_latency st results
    · simp [send_batch_request, slotCount, hs]
  | exn m => simp [send_batch_request, slotCount]

theorem run_batches_outcomes (batch_size : Nat)
    (resp : Nat → BatchResponse) (lat : Nat → ℚ) (bs : List Nat) :
    ∀ st, ((run_batches batch_size resp lat st bs).2.map List.length).sum
      = (bs.map fun b => slotCount batch_size (resp b)).sum := by
  induction bs with
  | nil => intro st; rfl
  | cons b bs ih =>
    intro st
    rw [run_batches]
    simp only [List.map_cons, List.sum_cons]
    rw [send_batch_request_length, ih]

theorem totalOutcomes_eq (requests batch_size : Nat)
    (resp : Nat → BatchResponse) (lat : Nat → ℚ) :
    totalOutcomes requests batch_size resp lat
      = ((batchStarts requests batch_size).map fun b => slotCount batch_size (resp b)).sum := by
  unfold totalOutcomes run_dispatch
  exact run_batches_outcomes batch_size resp lat (batchStarts requests batch_size) _

/-- A transport failure of the outbound batch call: the server answered
with a non-200 status, or the request / body parse raised. -/
def transportFailure (resp : BatchResponse) : Prop :=
  (∃ s rs, resp = .http s rs ∧ s ≠ 200) ∨ ∃ m, resp = .exn m

/-- The job ids a single batch contributes to `self.job_ids`: exactly
the ids of the success-marked results of a 200 response, nothing on a
transport failure. -/
def batchSuccessIds (resp : BatchResponse) : List String :=
  match resp with
  | .http status results =>
    if status = 200 then (results.filter fun r => r.status = "success").map JobResult.job_id
    else []
  | .exn _ => []

theorem processResults_job_ids (batch_size : Nat) (batch_latency : ℚ)
    (rs : List JobResult) : ∀ st : LTState,
    (processResults batch_size batch_latency st rs).1.job_ids
      = st.job_ids ++ (rs.filter fun r => r.status = "success").map JobResult.job_id := by
  induction rs with
  | nil => intro st; simp [processResults]
  | cons r rs ih =>
    intro st
    rw [processResults]
    by_cases h : r.status = "success"
    · simp only [h, if_true]
      rw [ih]
      simp [List.filter_cons, h]
    · simp only [h, if_false]
      rw [ih]
      simp [List.filter_cons, h]

theorem send_batch_request_job_ids (batch_size : Nat) (batch_latency : ℚ)
    (st : LTState) (resp : BatchResponse) :
    (send_batch_request batch_size batch_latency st resp).1.job_ids
      = st.job_ids ++ batchSuccessIds resp := by
  cases resp with
  | http status results =>
    by_cases hs : status = 200
    · subst hs
      simpa [send_batch_request, batchSuccessIds] using
        processResults_job_ids batch_size batch_latency results st
    · simp [send_batch_request, batchSuccessIds, hs]
  | exn m => simp [send_batch_request, batchSuccessIds]

theorem run_batches_job_ids (batch_size : Nat)
    (resp : Nat → BatchResponse) (lat : Nat → ℚ) (bs : List Nat) :
    ∀ st : LTState, (run_batches batch_size resp lat st bs).1.job_ids
      = st.job_ids ++ (bs.map fun b => batchSuccessIds (resp b)).flatten := by
  induction bs with
  | nil => intro st; simp [run_batches]
  | cons b bs ih =>
    intro st
    rw [run_batches]
    simp only [List.map_cons, List.flatten_cons]
    rw [ih, send_batch_request_job_ids]
    simp

/-- Every job id recorded by the dispatch phase comes from a
success-marked result of some batch; failed dispatches contribute no
job id. -/
theorem run_dispatch_job_ids (requests batch_size : Nat)
    (resp : Nat → BatchResponse) (lat : Nat → ℚ) :
    (run_dispatch requests batch_size resp lat).1.job_ids
      = ((batchStarts requests batch_size).map fun b => batchSuccessIds (resp b)).flatten := by
  unfold run_dispatch
  rw [run_batches_job_ids]
  rfl

/-- C1, counterexample input.  With `R = 5`, `B = 3` and every batch
failing at transport level (`return [False] * self.config.batch_size`),
the run creates `ceil(5/3) = 2` batch tasks but records `2 * 3 = 6`
per-request outcome slots, not `R = 5`: the last batch always carries a
full `batch_size` payload, so slots overshoot whenever `B ∤ R`. -/
theorem C1_counterexample :
    (batchStarts 5 3).length = 2 ∧
    totalOutcomes 5 3 (fun _ => .http 500 []) (fun _ => 1) = 6 ∧
    totalOutcomes 5 3 (fun _ => .http 500 []) (fun _ => 1) ≠ 5 := by
  refine ⟨by decide, by decide, by decide⟩

/-- C1 (amended): `LoadTester.run` creates exactly `ceil(R/B)` batch
tasks, and — whenever each batch response carries one per-job slot per
submitted payload (which transport failures always do, via
`[False] * batch_size`) — records `ceil(R/B) * B` per-request outcome
slots in total; this equals `R` exactly when `B` divides `R`. -/
theorem C1_batches_and_outcomes (R B : Nat)
    (resp : Nat → BatchResponse) (lat : Nat → ℚ)
    (hR : 1 ≤ R) (hB : 1 ≤ B)
    (hresp : ∀ b ∈ batchStarts R B, slotCount B (resp b) = B) :
    (batchStarts R B).length = (R + B - 1) / B ∧
    totalOutcomes R B resp lat = ((R + B - 1) / B) * B ∧
    (B ∣ R → totalOutcomes R B resp lat = R) := by
  have hlen : (batchStarts R B).length = (R + B - 1) / B := by
    unfold batchStarts
    rw [pyRange_length R B hB 0]
    simp
  have hto : totalOutcomes R B resp lat = (batchStarts R B).length * B := by
    rw [totalOutcomes_eq]
    rw [List.map_congr_left hresp]
    rw [List.map_const']
    rw [List.sum_replicate, smul_eq_mul]
  refine ⟨hlen, by rw [hto, hlen], ?_⟩
  intro hdvd
  obtain ⟨k, hk⟩ := hdvd
  have hdiv : (R + B - 1) / B = k := by
    have h1 : R + B - 1 = (B - 1) + B * k := by omega
    rw [h1, Nat.add_mul_div_left _ _ hB, Nat.div_eq_of_lt (by omega), Nat.zero_add]
  rw [hto, hlen, hdiv, hk]
  exact Nat.mul_comm k B

/-- Closed instance of `C1_batches_and_outcomes` at `R = 6`, `B = 3`,
all batches failing with a network exception. -/
theorem C1_witness :
    (batchStarts 6 3).length = (6 + 3 - 1) / 3 ∧
    totalOutcomes 6 3 (fun _ => .exn "net") (fun _ => 1) = ((6 + 3 - 1) / 3) * 3 ∧
    (3 ∣ 6 → totalOutcomes 6 3 (fun _ => .exn "net") (fun _ => 1) = 6) :=
  C1_batches_and_outcomes 6 3 (fun _ => .exn "net") (fun _ => 1)
    (by decide) (by decide) (by decide)

/-- The batch responses of the C2 scenario: the batch starting at index
0 answers HTTP 500, the other nine batches answer 200 with ten
success-marked results each. -/
def scenarioResp : Nat → BatchResponse := fun b =>
  if b = 0 then .http 500 []
  else .http 200 ((List.range 10).map fun i => ⟨"success", toString (b + i)⟩)

/-- C2: a transport failure (non-200 status or exception) fails the
whole batch — `send_batch_request` returns `[False] * batch_size`,
leaves the accumulators untouched (so the batch is not retried and
contributes no job id), and, being a total function of the response,
propagates no exception.  In the scenario of one HTTP-500 batch among
10 batches of 10, the run completes with 90 successful slots and 10
failed slots out of 100. -/
theorem C2_transport_failure :
    (∀ (B : Nat) (lat : ℚ) (st : LTState) (resp : BatchResponse),
      transportFailure resp →
        send_batch_request B lat st resp = (st, List.replicate B false)) ∧
    (run_dispatch 100 10 scenarioResp (fun _ => 1 / 20)).1.successful_requests = 90 ∧
    ((run_dispatch 100 10 scenarioResp (fun _ => 1 / 20)).2.flatten.count false) = 10 ∧
    ((run_dispatch 100 10 scenarioResp (fun _ => 1 / 20)).2.flatten.count true) = 90 ∧
    ((run_dispatch 100 10 scenarioResp (fun _ => 1 / 20)).2.flatten.length) = 100 := by
  refine ⟨?_, by decide, by decide, by decide, by decide⟩
  intro B lat st resp h
  rcases h with ⟨s, rs, rfl, hs⟩ | ⟨m, rfl⟩
  · simp [send_batch_request, hs]
  · simp [send_batch_request]

/-- Closed instance of the universal part of `C2_transport_failure`:
an HTTP 500 response for a batch of 10 yields ten failed slots and an
unchanged state. -/
theorem C2_witness :
    send_batch_request 10 1 ⟨[], [], 0⟩ (.http 500 [])
      = (⟨[], [], 0⟩, List.replicate 10 false) :=
  C2_transport_failure.1 10 1 ⟨[], [], 0⟩ (.http 500 [])
    (Or.inl ⟨500, [], rfl, by decide⟩)

/-- The `combined["performance"]` block of `TestRunner._compile_results`
(runner.py, lines 203–222), added only when `processing_time > 0`:
throughput `S / D`, `extrapolated_million_seconds = 1000000 / (S / D)`,
`extrapolated_million_minutes` = that over 60, and
`goal_achieved = (extrapolated_million_minutes <= 10)`. -/
structure PerformanceSection where
  total_processing_time : ℚ
  throughput_per_second : ℚ
  extrapolated_million_seconds : ℚ
  extrapolated_million_minutes : ℚ
  goal_achieved : Bool
deriving DecidableEq

def compile_performance (successful_requests : Nat) (processing_time : ℚ) :
    Option PerformanceSection :=
  if 0 < processing_time then
    some
      { total_processing_time := processing_time
        throughput_per_second := (successful_requests : ℚ) / processing_time
        extrapolated_million_seconds :=
          1000000 / ((successful_requests : ℚ) / processing_time)
        extrapolated_million_minutes :=
          (1000000 / ((successful_requests : ℚ) / processing_time)) / 60
        goal_achieved :=
          decide ((1000000 / ((successful_requests : ℚ) / processing_time)) / 60 ≤ 10) }
  else none

/-- C3: for `S ≥ 1` successful requests and processing time `D > 0`,
the performance block exists and carries
`extrapolated_million_seconds = 1000000 * D / S`,
`extrapolated_million_minutes` = that over 60, and `goal_achieved`
holds exactly when the minutes figure is at most 10. -/
theorem C3_extrapolation (S : Nat) (D : ℚ) (hS : 1 ≤ S) (hD : 0 < D) :
    compile_performance S D = some
      { total_processing_time := D
        throughput_per_second := (S : ℚ) / D
        extrapolated_million_seconds := 1000000 * D / S
        extrapolated_million_minutes := 1000000 * D / S / 60
        goal_achieved := decide (1000000 * D / S / 60 ≤ 10) } ∧
    ∀ p, compile_performance S D = some p →
      (p.goal_achieved = true ↔ p.extrapolated_million_minutes ≤ 10) := by
  have hS0 : (S : ℚ) ≠ 0 := by
    have h1 : (1 : ℚ) ≤ (S : ℚ) := by exact_mod_cast hS
    intro h
    rw [h] at h1
    norm_num at h1
  have hD0 : D ≠ 0 := ne_of_gt hD
  have key : (1000000 : ℚ) / ((S : ℚ) / D) = 1000000 * D / S := by
    field_simp
  constructor
  · unfold compile_performance
    rw [if_pos hD, key]
  · intro p hp
    simp only [compile_performance, if_pos hD, Option.some.injEq] at hp
    subst hp
    simp

/-- Closed instance of `C3_extrapolation` at `S = 1`, `D = 1`. -/
theorem C3_witness :
    compile_performance 1 1 = some
      { total_processing_time := 1
        throughput_per_second := (1 : ℚ) / 1
        extrapolated_million_seconds := 1000000 * 1 / 1
        extrapolated_million_minutes := 1000000 * 1 / 1 / 60
        goal_achieved := decide ((1000000 : ℚ) * 1 / 1 / 60 ≤ 10) } ∧
    ∀ p, compile_performance 1 1 = some p →
      (p.goal_achieved = true ↔ p.extrapolated_million_minutes ≤ 10) :=
  C3_extrapolation 1 1 (by decide) (by norm_num)

/-- `TestRunner._sample_job_ids(job_ids, 100)`: the empty list stays
empty, a list of at most `max_sample` ids is returned unchanged, and a
longer list goes through `random.sample(job_ids, max_sample)`, which
draws `max_sample` distinct positions — modelled as taking the first
`max_sample` elements of a permutation `shuffled` of the list. -/
def sample_job_ids (job_ids : List String) (max_sample : Nat)
    (shuffled : List String) : List String :=
  if job_ids.isEmpty then []
  else if job_ids.length ≤ max_sample then job_ids
  else shuffled.take max_sample

/-- C5: the Orchestrator hands the Verifier exactly `min(N, 100)` job
ids, each drawn from the successful-id list with no position reused
(the sample is a sub-multiset of the list), the list passed unchanged
when `N ≤ 100`; and every sampled id originates in a success-marked
result of some dispatched batch, never in a failed dispatch. -/
theorem C5_sampling :
    (∀ (job_ids shuffled : List String), shuffled.Perm job_ids →
      (sample_job_ids job_ids 100 shuffled).length = min job_ids.length 100 ∧
      (∀ x ∈ sample_job_ids job_ids 100 shuffled, x ∈ job_ids) ∧
      ((sample_job_ids job_ids 100 shuffled : Multiset String)
        ≤ (job_ids : Multiset String)) ∧
      (job_ids.length ≤ 100 → sample_job_ids job_ids 100 shuffled = job_ids)) ∧
    (∀ (R B : Nat) (resp : Nat → BatchResponse) (lat : Nat → ℚ)
        (shuffled : List String),
      shuffled.Perm (run_dispatch R B resp lat).1.job_ids →
      ∀ x ∈ sample_job_ids (run_dispatch R B resp lat).1.job_ids 100 shuffled,
        ∃ b ∈ batchStarts R B, x ∈ batchSuccessIds (resp b)) := by
  have main : ∀ (job_ids shuffled : List String), shuffled.Perm job_ids →
      (sample_job_ids job_ids 100 shuffled).length = min job_ids.length 100 ∧
      (∀ x ∈ sample_job_ids job_ids 100 shuffled, x ∈ job_ids) ∧
      ((sample_job_ids job_ids 100 shuffled : Multiset String)
        ≤ (job_ids : Multiset String)) ∧
      (job_ids.length ≤ 100 → sample_job_ids job_ids 100 shuffled = job_ids) := by
    intro job_ids shuffled hperm
    unfold sample_job_ids
    by_cases hempty : job_ids.isEmpty
    · have hnil : job_ids = [] := List.isEmpty_iff.mp hempty
      subst hnil
      simp
    · simp only [hempty, if_false]
      by_cases hle : job_ids.length ≤ 100
      · simp only [hle, if_true]
        exact ⟨(Nat.min_eq_left hle).symm, fun x hx => hx, le_refl _, fun _ => rfl⟩
      · simp only [hle, if_false]
        have hlen : (shuffled.take 100).length = min job_ids.length 100 := by
          rw [List.length_take, hperm.length_eq, Nat.min_comm]
        have hsub : (shuffled.take 100).Subperm job_ids :=
          ((List.take_sublist 100 shuffled).subperm).trans hperm.subperm
        refine ⟨hlen, ?_, ?_, fun h => h.elim⟩
        · intro x hx
          exact hperm.mem_iff.mp (List.mem_of_mem_take hx)
        · exact Multiset.coe_le.mpr hsub
  refine ⟨main, ?_⟩
  intro R B resp lat shuffled hperm x hx
  have hmem : x ∈ (run_dispatch R B resp lat).1.job_ids :=
    (main _ shuffled hperm).2.1 x hx
  rw [run_dispatch_job_ids] at hmem
  rcases List.mem_flatten.mp hmem with ⟨l, hl, hxl⟩
  rcases List.mem_map.mp hl with ⟨b, hb, rfl⟩
  exact ⟨b, hb, hxl⟩

/-- Closed instance of `C5_sampling` on the two-element successful-id
list `["a", "b"]` with the shuffle `["b", "a"]`. -/
theorem C5_witness :
    (sample_job_ids ["a", "b"] 100 ["b", "a"]).length = min 2 100 ∧
    (∀ x ∈ sample_job_ids ["a", "b"] 100 ["b", "a"], x ∈ ["a", "b"]) ∧
    ((sample_job_ids ["a", "b"] 100 ["b", "a"] : Multiset String)
      ≤ (["a", "b"] : Multiset String)) ∧
    (List.length ["a", "b"] ≤ 100 →
      sample_job_ids ["a", "b"] 100 ["b", "a"] = ["a", "b"]) :=
  C5_sampling.1 ["a", "b"] ["b", "a"] (by decide)

/-- The burst scheduling of `LoadTester.run`: the task list is cut into
slices `tasks[i : i + concurrency]` for `i in
range(0, len(tasks), concurrency)`, and each slice is awaited with
`asyncio.gather` before the next slice starts, so the batch requests in
flight at any instant are exactly the unfinished tasks of the current
slice. -/
def bursts {α : Type} (tasks : List α) (concurrency : Nat) : List (List α) :=
  (pyRange 0 tasks.length concurrency).map fun i => (tasks.drop i).take concurrency

theorem bursts_flatten {α : Type} (l : List α) (C : Nat) (hC : 0 < C) :
    (bursts l C).flatten = l := by
  have H : ∀ d i, l.length - i ≤ d →
      ((pyRange i l.length C).map fun j => (l.drop j).take C).flatten = l.drop i := by
    intro d
    induction d with
    | zero =>
      intro i hle
      rw [pyRange_eq]
      have hlt : ¬ i < l.length := by omega
      simp only [hlt, and_false, if_false, List.map_nil, List.flatten_nil]
      exact (List.drop_eq_nil_of_le (by omega)).symm
    | succ d ih =>
      intro i hle
      rw [pyRange_eq]
      by_cases hlt : i < l.length
      · simp only [hC, hlt, and_self, if_true, List.map_cons, List.flatten_cons]
        rw [ih (i + C) (by omega)]
        have hdd : l.drop (i + C) = (l.drop i).drop C := by
          rw [List.drop_drop, Nat.add_comm]
        rw [hdd, List.take_append_drop]
      · simp only [hlt, and_false, if_false, List.map_nil, List.flatten_nil]
        exact (List.drop_eq_nil_of_le (by omega)).symm
  have h0 := H l.length 0 (by omega)
  simpa [bursts] using h0

/-- C6: with concurrency cap `C ≥ 1`, every burst `LoadTester.run`
awaits contains at most `C` batch tasks — so at no instant are more
than `C` batch requests awaiting a response — and the bursts together
cover exactly the `ceil(R/B)` batch tasks. -/
theorem C6_concurrency_cap (R B C : Nat) (hC : 0 < C) :
    (∀ burst ∈ bursts (batchStarts R B) C, burst.length ≤ C) ∧
    (bursts (batchStarts R B) C).flatten = batchStarts R B := by
  refine ⟨?_, bursts_flatten _ C hC⟩
  intro burst hburst
  rcases List.mem_map.mp hburst with ⟨i, _, rfl⟩
  exact List.length_take_le C ((batchStarts R B).drop i)

/-- Closed instance of `C6_concurrency_cap` at `R = 10`, `B = 2`,
`C = 2`. -/
theorem C6_witness :
    (∀ burst ∈ bursts (batchStarts 10 2) 2, burst.length ≤ 2) ∧
    (bursts (batchStarts 10 2) 2).flatten = batchStarts 10 2 :=
  C6_concurrency_cap 10 2 2 (by decide)

/-- The `final_results` dictionary `Verifier.verify` builds after its
polling loop (verifier.py 153–173): counts, elapsed time, throughput
(`0` when no time elapsed), the 1-million extrapolation figures when
throughput is positive, and — only when some jobs never confirmed —
the `failed_jobs` set. -/
structure VerifyResult where
  total_jobs : Nat
  completed_jobs : Nat
  elapsed_seconds : ℚ
  throughput_per_second : ℚ
  extrapolated_million : Option (ℚ × ℚ)
  failed_jobs : Option (List String)
deriving DecidableEq

/-- What `Verifier.verify` hands back to its caller: the normal result
dictionary, the `{"status": "error"}` dictionary built by the
`except Exception` arm, or the `{"status": "interrupted"}` dictionary
of the `except KeyboardInterrupt` arm. -/
inductive VerifyOutcome where
  | success (r : VerifyResult)
  | error (completed_jobs total_jobs : Nat)
  | interrupted (completed_jobs total_jobs : Nat) (elapsed_seconds : ℚ)
deriving DecidableEq

/-- The `while time.time() - self.start_time < self.config.timeout`
loop of `Verifier.verify` on an abstract clock: checking the backend
takes no time, each sleep advances the clock by `interval`.  `confirm
round j` is the S3 oracle (`head_object` succeeding for job `j` in
round `round`); `fuel` bounds the modelled iterations and `none` means
the budget ran out, not a behavior of the code. -/
def verify_loop (confirm : Nat → String → Bool) (jobIds : List String)
    (timeout interval : ℚ) :
    Nat → Nat → Finset String → ℚ → Option (Finset String × ℚ)
  | fuel, round, completed, elapsed =>
    if elapsed < timeout then
      let jobs_to_check := jobIds.filter fun j => decide (j ∉ completed)
      if jobs_to_check.isEmpty then some (completed, elapsed)
      else
        let newly := jobs_to_check.filter fun j => confirm round j
        let completed' := completed ∪ newly.toFinset
        match fuel with
        | 0 => none
        | fuel' + 1 =>
          if completed'.card < jobIds.length then
            verify_loop confirm jobIds timeout interval fuel' (round + 1) completed'
              (elapsed + interval)
          else
            verify_loop confirm jobIds timeout interval fuel' (round + 1) completed' elapsed
    else some (completed, elapsed)

def mkVerifyResult (jobIds : List String) (completed : Finset String)
    (elapsed : ℚ) : VerifyResult :=
  let throughput : ℚ := if 0 < elapsed then (completed.card : ℚ) / elapsed else 0
  { total_jobs := jobIds.length
    completed_jobs := completed.card
    elapsed_seconds := elapsed
    throughput_per_second := throughput
    extrapolated_million :=
      if 0 < throughput then some (1000000 / throughput, 1000000 / throughput / 60)
      else none
    failed_jobs :=
      if completed.card < jobIds.length then
        some (jobIds.dedup.filter fun j => decide (j ∉ completed))
      else none }

/-- `Verifier.verify` once the job-id list is known (the
`if not self.job_ids: self.load_job_ids()` preamble resolved to this
list): run the polling loop, then build, save and log `final_results`.
`_log_results` computes `completed_jobs / total_jobs * 100`
(verifier.py 246–250), so a zero `total_jobs` raises
`ZeroDivisionError`, which the surrounding `except Exception` turns
into the `{"status": "error"}` dictionary. -/
def verify (confirm : Nat → String → Bool) (jobIds : List String)
    (timeout interval : ℚ) (fuel : Nat) : Option VerifyOutcome :=
  match verify_loop confirm jobIds timeout interval fuel 0 ∅ 0 with
  | none => none
  | some (completed, elapsed) =>
    if jobIds.length = 0 then some (.error completed.card jobIds.length)
    else some (.success (mkVerifyResult jobIds completed elapsed))

/-- C8: `Verifier.verify` on an empty job-id set does not terminate
successfully — the loop breaks at once, but `_log_results` divides by
`total_jobs = 0` and the resulting `ZeroDivisionError` is caught into
a `{"status": "error"}` result, contradicting the spec's "if empty,
terminate successfully immediately". -/
theorem C8_empty_jobs_error (confirm : Nat → String → Bool)
    (timeout interval : ℚ) (fuel : Nat) :
    verify confirm [] timeout interval fuel = some (.error 0 0) := by
  unfold verify
  rw [verify_loop]
  by_cases h : (0 : ℚ) < timeout
  · simp [h]
  · simp [h]

/-- The never-confirming backend leaves the loop's completed set empty
and forces it to sleep through rounds until `timeout` is exhausted:
with fuel worth at least `timeout` of sleep time, the loop returns the
empty set at the first clock value `≥ timeout`, which is below
`timeout + interval`. -/
theorem verify_loop_never_confirm (jobIds : List String)
    (timeout interval : ℚ) (hne : jobIds ≠ []) :
    ∀ (fuel : Nat) (round : Nat) (elapsed : ℚ),
      timeout ≤ elapsed + (fuel : ℚ) * interval → elapsed < timeout + interval →
      ∃ e, verify_loop (fun _ _ => false) jobIds timeout interval fuel round ∅ elapsed
          = some (∅, e) ∧ timeout ≤ e ∧ e < timeout + interval := by
  intro fuel
  induction fuel with
  | zero =>
    intro round elapsed hfuel hinv
    rw [Nat.cast_zero, zero_mul, add_zero] at hfuel
    have hstop : ¬ elapsed < timeout := not_lt.mpr hfuel
    rw [verify_loop]
    simp only [hstop, if_false]
    exact ⟨elapsed, rfl, hfuel, hinv⟩
  | succ f ih =>
    intro round elapsed hfuel hinv
    rw [verify_loop]
    by_cases hlt : elapsed < timeout
    · have hcheck : (jobIds.filter fun j => decide (j ∉ (∅ : Finset String))) = jobIds := by
        simp
      simp only [hlt, if_true, hcheck]
      have hne' : jobIds.isEmpty = false := by
        simpa [List.isEmpty_iff] using hne
      simp only [hne', Bool.false_eq_true, if_false]
      have hnew : (jobIds.filter fun _ => false) = [] := List.filter_false jobIds
      simp only [hnew, List.toFinset_nil, Finset.union_empty, Finset.card_empty]
      have hpos : 0 < jobIds.length := List.length_pos.mpr hne
      simp only [hpos, if_true]
      have hcast : ((f + 1 : ℕ) : ℚ) = (f : ℚ) + 1 := by push_cast; ring
      rw [hcast] at hfuel
      have hexp : ((f : ℚ) + 1) * interval = (f : ℚ) * interval + interval := by ring
      rw [hexp] at hfuel
      have hfuel' : timeout ≤ (elapsed + interval) + (f : ℚ) * interval := by linarith
      have hinv' : elapsed + interval < timeout + interval := by linarith
      exact ih (round + 1) (elapsed + interval) hfuel' hinv'
    · simp only [hlt, if_false]
      exact ⟨elapsed, rfl, not_lt.mp hlt, hinv⟩

/-- C4: against a backend that never confirms any job, `verify` on a
non-empty job-id list returns (rather than raising) a success-shaped
result within `timeout` plus at most one poll interval, with
`completed_jobs = 0` and a `failed_jobs` list whose members are exactly
the input job ids. -/
theorem C4_timeout_never_confirmed (jobIds : List String)
    (timeout interval : ℚ) (fuel : Nat)
    (hne : jobIds ≠ []) (hT : 0 < timeout) (hI : 0 < interval)
    (hfuel : timeout ≤ (fuel : ℚ) * interval) :
    ∃ r, verify (fun _ _ => false) jobIds timeout interval fuel
        = some (.success r) ∧
      r.completed_jobs = 0 ∧
      r.total_jobs = jobIds.length ∧
      (∃ fl, r.failed_jobs = some fl ∧ ∀ j, j ∈ fl ↔ j ∈ jobIds) ∧
      r.elapsed_seconds < timeout + interval := by
  obtain ⟨e, hloop, hTe, heI⟩ :=
    verify_loop_never_confirm jobIds timeout interval hne fuel 0 0
      (by simpa using hfuel) (by linarith)
  have hlen : jobIds.length ≠ 0 := fun h => hne (List.eq_nil_of_length_eq_zero h)
  refine ⟨mkVerifyResult jobIds ∅ e, ?_, ?_, rfl, ?_, heI⟩
  · unfold verify
    rw [hloop]
    simp [hlen]
  · simp [mkVerifyResult]
  · have hpos : 0 < jobIds.length := Nat.pos_of_ne_zero hlen
    refine ⟨jobIds.dedup.filter fun j => decide (j ∉ (∅ : Finset String)), ?_, ?_⟩
    · simp [mkVerifyResult, hpos]
    · intro j
      simp [List.mem_dedup]

/-- Closed instance of `C4_timeout_never_confirmed`: one job, timeout
and poll interval of one second, fuel for one sleep. -/
theorem C4_witness :
    ∃ r, verify (fun _ _ => false) ["a"] 1 1 1 = some (.success r) ∧
      r.completed_jobs = 0 ∧
      r.total_jobs = List.length ["a"] ∧
      (∃ fl, r.failed_jobs = some fl ∧ ∀ j, j ∈ fl ↔ j ∈ ["a"]) ∧
      r.elapsed_seconds < 1 + 1 :=
  C4_timeout_never_confirmed ["a"] 1 1 1 (by decide) (by norm_num) (by norm_num)
    (by norm_num)

/-- Result of `TestRunner._wait_for_empty_queue` on a finite trace of
queue polls: it either returns the timestamp taken at the poll that
observed zero messages, re-raises a transport error to the caller, or
is still polling when the trace ends (`pending` — the real loop keeps
going). -/
inductive DrainOutcome where
  | drained (t : ℚ)
  | raised (msg : String)
  | pending
deriving DecidableEq

/-- A reading is a nonzero approximate message count. -/
def isNonzeroCount : Except String Nat → Bool
  | .ok (_ + 1) => true
  | _ => false

/-- The `while True` polling loop of `TestRunner._wait_for_empty_queue`
(runner.py 120–145) over a trace of polls, each an abstract timestamp
paired with the outcome of `get_queue_attributes`: at `msg_count == 0`
it returns `time.time()` — the timestamp of that poll; any exception is
logged and re-raised (`raise`), never retried; a nonzero count sleeps
and polls again. -/
def wait_for_empty_queue : List (ℚ × Except String Nat) → DrainOutcome
  | [] => .pending
  | (t, r) :: rest =>
    match r with
    | .error m => .raised m
    | .ok 0 => .drained t
    | .ok (_ + 1) => wait_for_empty_queue rest

/-- C9: the drain wait returns at the first zero reading with that
poll's timestamp (any readings after it are never consulted), and a
transport error after any run of nonzero readings is raised to the
caller rather than retried. -/
theorem C9_first_zero_drain :
    (∀ (pre : List (ℚ × Except String Nat)) (t : ℚ)
        (rest : List (ℚ × Except String Nat)),
      (∀ p ∈ pre, isNonzeroCount p.2 = true) →
      wait_for_empty_queue (pre ++ (t, Except.ok 0) :: rest) = .drained t) ∧
    (∀ (pre : List (ℚ × Except String Nat)) (t : ℚ) (m : String)
        (rest : List (ℚ × Except String Nat)),
      (∀ p ∈ pre, isNonzeroCount p.2 = true) →
      wait_for_empty_queue (pre ++ (t, Except.error m) :: rest) = .raised m) := by
  constructor
  · intro pre t rest hpre
    induction pre with
    | nil => rfl
    | cons p pre ih =>
      obtain ⟨t', r'⟩ := p
      have h := hpre (t', r') (List.mem_cons_self _ _)
      cases r' with
      | error m => simp [isNonzeroCount] at h
      | ok n =>
        cases n with
        | zero => simp [isNonzeroCount] at h
        | succ k =>
          simp only [List.cons_append, wait_for_empty_queue]
          exact ih fun p hp => hpre p (List.mem_cons_of_mem _ hp)
  · intro pre t m rest hpre
    induction pre with
    | nil => rfl
    | cons p pre ih =>
      obtain ⟨t', r'⟩ := p
      have h := hpre (t', r') (List.mem_cons_self _ _)
      cases r' with
      | error m' => simp [isNonzeroCount] at h
      | ok n =>
        cases n with
        | zero => simp [isNonzeroCount] at h
        | succ k =>
          simp only [List.cons_append, wait_for_empty_queue]
          exact ih fun p hp => hpre p (List.mem_cons_of_mem _ hp)

/-- Closed instance of `C9_first_zero_drain`: the spec's scenario of
successive readings 5, 3, 0 at timestamps 0, 1, 2 — the wait returns at
the third poll with that poll's timestamp. -/
theorem C9_witness :
    wait_for_empty_queue
        ([(0, Except.ok 5), (1, Except.ok 3)] ++ ((2 : ℚ), Except.ok 0) :: [])
      = DrainOutcome.drained 2 :=
  C9_first_zero_drain.1 [(0, Except.ok 5), (1, Except.ok 3)] 2 [] (by decide)

/-- A value held in one of the Python result dictionaries. -/
inductive PyVal where
  | str (s : String)
  | num (q : ℚ)
deriving DecidableEq

/-- Python `d[k]`: the value when the key is present, `KeyError`
otherwise. -/
def dictGet (d : List (String × PyVal)) (k : String) : Except String PyVal :=
  match d.find? fun kv => decide (kv.1 = k) with
  | some kv => .ok kv.2
  | none => .error ("KeyError: " ++ k)

/-- Python `d.get(k, v)`. -/
def dictGetD (d : List (String × PyVal)) (k : String) (v : PyVal) : PyVal :=
  match d.find? fun kv => decide (kv.1 = k) with
  | some kv => kv.2
  | none => v

/-- The dictionary the `except KeyboardInterrupt` arm of
`Verifier.verify` returns (verifier.py 198–203): the "interrupted"
status plus the completed/total snapshot and elapsed time — and no
`throughput_per_second` entry. -/
def verifier_interrupt_result (completed total : Nat) (elapsed : ℚ) :
    List (String × PyVal) :=
  [("status", .str "interrupted"),
   ("completed_jobs", .num completed),
   ("total_jobs", .num total),
   ("elapsed_seconds", .num elapsed)]

/-- The fields of `load_test_results` that `_compile_results` reads;
`LoadTester.run` always produces all four. -/
structure LoadSection where
  total_requests : Nat
  successful_requests : Nat
  duration_seconds : ℚ
  throughput_per_second : ℚ
deriving DecidableEq

/-- The `combined["verification"]` block of `_compile_results`. -/
structure VerificationSection where
  total_jobs : PyVal
  completed_jobs : PyVal
  duration_seconds : PyVal
  throughput_per_second : PyVal
  sample_size : PyVal
deriving DecidableEq

/-- The combined dictionary `TestRunner._compile_results` builds
(note: it has no "status" entry). -/
structure CombinedResults where
  timestamp : PyVal
  load_test : LoadSection
  processing_total_time : ℚ
  processing_throughput : ℚ
  verification : VerificationSection
  performance : Option PerformanceSection
deriving DecidableEq

/-- `TestRunner._compile_results` (runner.py 167–236): reads
`verify_results` by subscript — `total_jobs`, `completed_jobs`,
`elapsed_seconds`, `throughput_per_second` — so a dictionary missing one
of those keys raises `KeyError`; `timestamp` is read with `.get` and a
default (`now` stands for `str(time.time())`). -/
def compile_results (load : LoadSection) (verify_results : List (String × PyVal))
    (processing_time : ℚ) (now : String) : Except String CombinedResults := do
  let vt ← dictGet verify_results "total_jobs"
  let vc ← dictGet verify_results "completed_jobs"
  let ve ← dictGet verify_results "elapsed_seconds"
  let vthr ← dictGet verify_results "throughput_per_second"
  pure
    { timestamp := dictGetD verify_results "timestamp" (.str now)
      load_test := load
      processing_total_time := processing_time
      processing_throughput :=
        if 0 < processing_time then (load.successful_requests : ℚ) / processing_time
        else 0
      verification :=
        { total_jobs := vt
          completed_jobs := vc
          duration_seconds := ve
          throughput_per_second := vthr
          sample_size := vt }
      performance := compile_performance load.successful_requests processing_time }

/-- What `TestRunner.run` ends with: the combined dictionary, or the
`{"status": "error", "error": msg}` dictionary its `except Exception`
arm builds (runner.py 93–97). -/
inductive RunReport where
  | report (c : CombinedResults)
  | error (msg : String)
deriving DecidableEq

/-- The "status" entry of the final report; the combined dictionary has
none. -/
def runReportStatus : RunReport → Option String
  | .report _ => none
  | .error _ => some "error"

/-- `TestRunner.run` from the moment `Verifier.verify` returned its
interrupt dictionary: `_compile_results` is attempted on it, and the
`KeyError` it raises is caught into the error report. -/
def runner_after_interrupt (load : LoadSection) (completed total : Nat)
    (elapsed processing_time : ℚ) (now : String) : RunReport :=
  match compile_results load (verifier_interrupt_result completed total elapsed)
      processing_time now with
  | .ok c => .report c
  | .error m => .error m

/-- C7, counterexample input: a run interrupted during verification
with snapshot 3 of 5 jobs confirmed after 2 s.  The orchestrator's
final report is the error report for `KeyError`
("throughput_per_second" is absent from the interrupt dictionary), so
its status is "error" — not the claimed "interrupted" — and the
snapshot is gone from it. -/
theorem C7_counterexample :
    runner_after_interrupt ⟨10, 10, 1, 10⟩ 3 5 2 4 "t"
        = .error ("KeyError: " ++ "throughput_per_second") ∧
    runReportStatus (runner_after_interrupt ⟨10, 10, 1, 10⟩ 3 5 2 4 "t")
        ≠ some "interrupted" := by
  refine ⟨by decide, by decide⟩

/-- C7 (amended): a KeyboardInterrupt in the Verifier's polling loop is
caught there, so the run terminates without an unhandled exception and
the Verifier's own return value is the "interrupted" dictionary with
the confirmed/total snapshot; but `TestRunner._compile_results` then
raises `KeyError("throughput_per_second")` on that dictionary, so the
final report the Orchestrator produces has status "error" and carries
neither the "interrupted" status nor the snapshot. -/
theorem C7_interrupt_report (load : LoadSection) (completed total : Nat)
    (elapsed processing_time : ℚ) (now : String) :
    dictGet (verifier_interrupt_result completed total elapsed) "status"
        = .ok (.str "interrupted") ∧
    dictGet (verifier_interrupt_result completed total elapsed) "completed_jobs"
        = .ok (.num completed) ∧
    dictGet (verifier_interrupt_result completed total elapsed) "total_jobs"
        = .ok (.num total) ∧
    compile_results load (verifier_interrupt_result completed total elapsed)
        processing_time now = .error ("KeyError: " ++ "throughput_per_second") ∧
    runner_after_interrupt load completed total elapsed processing_time now
        = .error ("KeyError: " ++ "throughput_per_second") ∧
    runReportStatus
        (runner_after_interrupt load completed total elapsed processing_time now)
        = some "error" := by
  refine ⟨rfl, rfl, rfl, rfl, ?_, ?_⟩
  · unfold runner_after_interrupt
    rfl
  · unfold runReportStatus runner_after_interrupt
    rfl

/-- The attribute set `Config.__init__` establishes (config.py 18–41);
`batch_size` is not among the attributes it defines, so reading
`config.batch_size` raises `AttributeError` — modelled by an `Option`
field that is `none`. -/
structure PyConfig where
  endpoint : Option String
  template_id : Option String
  bucket : Option String
  region : String
  requests : Nat
  concurrency : Nat
  interval : ℚ
  timeout : ℚ
  quiet : Bool
  batch_size : Option Nat
deriving DecidableEq

def Config.init : PyConfig :=
  { endpoint := none
    template_id := none
    bucket := none
    region := "eu-central-1"
    requests := 1000
    concurrency := 100
    interval := 5
    timeout := 600
    quiet := false
    batch_size := none }

/-- The options the argument parsers of `config.py`, `main.py` and
`cli.py` recognize for a run — none of them has `--batch-size`. -/
structure ConfigArgs where
  endpoint : String
  template : String
  bucket : String
  requests : Nat
  concurrency : Nat
  region : String
  interval : ℚ
  timeout : ℚ
  quiet : Bool
deriving DecidableEq

/-- `Config.parse_args` (config.py 43–126): updates every recognized
attribute from the parsed arguments; `batch_size` is never assigned. -/
def Config.parse_args (c : PyConfig) (a : ConfigArgs) : PyConfig :=
  { c with
    endpoint := some a.endpoint
    template_id := some a.template
    bucket := some a.bucket
    requests := a.requests
    concurrency := a.concurrency
    region := a.region
    interval := a.interval
    timeout := a.timeout
    quiet := a.quiet }

/-- The arguments of the standalone `run_perf_test.py` entry point,
whose parser does define `--batch-size` (default 10). -/
structure RunPerfTestArgs extends ConfigArgs where
  batch_size : Nat
deriving DecidableEq

/-- `run_perf_test.main` (run_perf_test.py 89–104): copies every parsed
argument onto the config object, including
`config.batch_size = args.batch_size`. -/
def run_perf_test_config (a : RunPerfTestArgs) : PyConfig :=
  { endpoint := some a.endpoint
    template_id := some a.template
    bucket := some a.bucket
    region := a.region
    requests := a.requests
    concurrency := a.concurrency
    interval := a.interval
    timeout := a.timeout
    quiet := a.quiet
    batch_size := some a.batch_size }

/-- Python attribute access `config.batch_size`. -/
def getattr_batch_size (c : PyConfig) : Except String Nat :=
  match c.batch_size with
  | some b => .ok b
  | none => .error "AttributeError: batch_size"

/-- `LoadTester.run` reads `self.config.batch_size` in its very first
status message (load_tester.py 119–122) and then to build the batch
tasks; without the attribute the phase raises `AttributeError` before
any request is sent. -/
def load_tester_run (c : PyConfig) (resp : Nat → BatchResponse) (lat : Nat → ℚ) :
    Except String (LTState × List (List Bool)) := do
  let b ← getattr_batch_size c
  pure (run_dispatch c.requests b resp lat)

/-- Phase 1 under the `except Exception` wrapper of `TestRunner.run`
(runner.py 93–97): an exception from the load-test phase yields the
`{"status": "error"}` report; on success the run proceeds to the later
phases (whose outcome is not decided here). -/
def runner_phase1_status (c : PyConfig) (resp : Nat → BatchResponse)
    (lat : Nat → ℚ) : Option String :=
  match load_tester_run c resp lat with
  | .error _ => some "error"
  | .ok _ => none

/-- C10: a config built by `config.py` (constructor plus
`Config.parse_args`, as used by `pdf_perf_test.main` and the CLI) has
no `batch_size` attribute, so `LoadTester.run` raises `AttributeError`
at its first use of `config.batch_size` and the full run always ends in
a status = "error" report; only the standalone `run_perf_test.py` entry
point sets `batch_size`. -/
theorem C10_missing_batch_size (a : ConfigArgs) (a' : RunPerfTestArgs)
    (resp : Nat → BatchResponse) (lat : Nat → ℚ) :
    Config.init.batch_size = none ∧
    (Config.parse_args Config.init a).batch_size = none ∧
    load_tester_run (Config.parse_args Config.init a) resp lat
        = .error "AttributeError: batch_size" ∧
    runner_phase1_status (Config.parse_args Config.init a) resp lat
        = some "error" ∧
    (run_perf_test_config a').batch_size = some a'.batch_size := by
  exact ⟨rfl, rfl, rfl, rfl, rfl⟩

end PdfPerfTest
